import Mathlib

/-!
Verification of the session/connection registry of the Spyder IPython console
plugin (spyderlib/plugins/ipythonconsole.py).

The embedding models the plugin state as the `shellwidgets` list of client
sessions together with the external console's list of locally supervised
kernel widgets.  Registry operations (`new_client`, `register_client`,
`close_console`, `move_tab`, `rename_ipython_client_tab`,
`connect_to_new_kernel`, `get_ipython_widget`) are translated directly from
the source; the three `re.match` patterns the source uses are embedded as a
small greedy backtracking matcher with the exact semantics of those patterns.
-/

namespace Spyder

/-- A client session widget (`IPythonClient`).  `cid` stands for the CPython
object identity `id(widget)`; `km_cf` is the connection file of the widget's
current `kernel_manager` (equal to `connection_file` at creation, updated by
`connect_to_new_kernel` while `connection_file` itself is not);
`interrupt_target` records the kernel widget, if any, whose
`keyboard_interrupt` was connected to `custom_interrupt_requested` at
registration time. -/
structure Client where
  cid : Nat
  connection_file : String
  kernel_widget_id : Option Nat
  client_name : String
  km_cf : String
  tabText : String
  interrupt_target : Option Nat
deriving DecidableEq, Repr

/-- A kernel widget of the external console plugin (`main.extconsole`),
identified by its CPython id and its connection file. -/
structure Kernel where
  kid : Nat
  connection_file : String
deriving DecidableEq, Repr

/-- The registry-relevant state of the `IPythonConsole` plugin: its
`shellwidgets` list (tab order) plus the external console's kernel widgets and
the `ask_before_closing` option. -/
structure PluginState where
  shellwidgets : List Client
  extconsole : List Kernel
  ask_before_closing : Bool
deriving DecidableEq, Repr

/-- Answers of a `QMessageBox.question` confirmation. -/
inductive Ans
  | yes
  | no
  | cancel
deriving DecidableEq, Repr

/-! ### The regex patterns

The source uses three patterns:
  * `'(kernel-|^)([a-fA-F0-9-]+)(.json|$)'` (interactive identifier input);
  * `'^kernel-([a-fA-F0-9-]+).json'` (client-name allocation);
  * `'^kernel-(\d+).json'` (tab rename after restart).
All have the shape: optional/required literal prefix `kernel-`, a greedy
one-or-more character-class group, then a tail (`.json` meaning any character
followed by literal `json`, optionally alternated with end of input).  The
matcher below reproduces Python's backtracking on the greedy group: the
longest character-class run is tried first, shrinking one character at a time
until the tail matches. -/

/-- Characters of the class `[a-fA-F0-9-]`. -/
def hexDash (c : Char) : Bool :=
  c.isDigit || ('a' ≤ c && c ≤ 'f') || ('A' ≤ c && c ≤ 'F') || c = '-'

/-- Does `rest` match the regex tail `.json` (any character, then literal
`json`, trailing input allowed since the patterns are not right-anchored)? -/
def dotJson (rest : List Char) : Bool :=
  decide (5 ≤ rest.length) && (rest.drop 1).take 4 = ['j', 's', 'o', 'n']

/-- Tail `(.json|$)`: the `$` alternative accepts the end of the input. -/
def dotJsonOrEnd (rest : List Char) : Bool :=
  dotJson rest || rest.isEmpty

/-- Greedy matching of `(<class>+)<tail>` against `s`, trying the group length
`k` first and backtracking downwards; returns the matched group. -/
def greedyGo (tail : List Char → Bool) (s : List Char) : Nat → Option (List Char)
  | 0 => none
  | k + 1 =>
    if tail (s.drop (k + 1)) then some (s.take (k + 1))
    else greedyGo tail s k

/-- Match `(<class>+)<tail>` at the start of `s`, greedy on the group. -/
def greedyMatch (cls : Char → Bool) (tail : List Char → Bool) (s : List Char) :
    Option (List Char) :=
  greedyGo tail s (s.takeWhile cls).length

/-- The literal `kernel-`. -/
def kernelDashLit : List Char := ['k', 'e', 'r', 'n', 'e', 'l', '-']

/-- Model of `re.match('(kernel-|^)([a-fA-F0-9-]+)(.json|$)', s)`, returning group 2
(the id fragment).  The `kernel-` alternative of group 1 is tried first; on
failure the engine backtracks to the empty `^` alternative. -/
def matchConnInput (s : List Char) : Option (List Char) :=
  if s.take 7 = kernelDashLit then
    match greedyMatch hexDash dotJsonOrEnd (s.drop 7) with
    | some g => some g
    | none => greedyMatch hexDash dotJsonOrEnd s
  else greedyMatch hexDash dotJsonOrEnd s

/-- Model of `re.match('^kernel-([a-fA-F0-9-]+).json', s)`, returning group 1. -/
def matchAlloc (s : List Char) : Option (List Char) :=
  if s.take 7 = kernelDashLit then greedyMatch hexDash dotJson (s.drop 7)
  else none

/-- Model of `re.match('^kernel-(\d+).json', s)`, returning group 1 (used by
`rename_ipython_client_tab`). -/
def matchRename (s : List Char) : Option (List Char) :=
  if s.take 7 = kernelDashLit then greedyMatch (fun c => c.isDigit) dotJson (s.drop 7)
  else none

/-- Failure of the connection identity resolver. -/
inductive ResolveErr
  | invalidIdentifier
deriving DecidableEq, Repr

/-- The connection identity resolver: the canonicalization step of the
interactive path of `new_client` (lines 748-761).  A failed match leaves
`match` as `None` and the subsequent `match.groups()` raises, so no connection
file is produced; a successful match rewrites the input to
`kernel-<fragment>.json`. -/
def resolve (input : String) : Except ResolveErr String :=
  match matchConnInput input.data with
  | none => Except.error ResolveErr.invalidIdentifier
  | some frag => Except.ok ("kernel-" ++ String.mk frag ++ ".json")

/-! ### The name allocator -/

/-- Python 2 `chr`: defined only below 256 (`ValueError` otherwise). -/
def pyChr (n : Nat) : Option Char :=
  if n < 256 then some (Char.ofNat n) else none

/-- The client-name allocation loop of `new_client` (lines 765-774): candidate
names `fragment + '/' + chr(65+count)` are tried in order; a candidate that
collides with a registered client's `client_name` overwrites
`kernel_widget_id` with that client's and moves to the next letter.  `none`
models the `ValueError` of `chr` past 255 (the fuel of 256 is never the
binding constraint since `pyChr` fails at count 191 first). -/
def allocateGo (frag : String) (clients : List Client) :
    Nat → Nat → Option Nat → Option (String × Option Nat)
  | 0, _, _ => none
  | fuel + 1, count, kw =>
    match pyChr (65 + count) with
    | none => none
    | some ch =>
      let name := frag ++ "/" ++ String.mk [ch]
      match clients.find? (fun c => c.client_name == name) with
      | some clw => allocateGo frag clients fuel (count + 1) clw.kernel_widget_id
      | none => some (name, kw)

/-- Entry point of the allocation loop, starting at letter `A` with the
`kernel_widget_id` currently in scope in `new_client`. -/
def allocate (frag : String) (clients : List Client) (kw0 : Option Nat) :
    Option (String × Option Nat) :=
  allocateGo frag clients 256 0 kw0

/-! ### Session creation -/

/-- The `kernel_widget_id` fallback of `new_client` (lines 780-784): scan the
external console's widgets and keep the id of the **last** one whose
connection file equals `cf` (the loop overwrites on every match). -/
def lastMatchKid (ks : List Kernel) (cf : String) : Option Nat :=
  ((ks.filter (fun k => k.connection_file == cf)).getLast?).map (fun k => k.kid)

/-- Embedding of `register_client` (lines 862-933).  The only fallible step that precedes
any registry mutation is `ipython_app.create_new_client`, which raises
`IOError`/`UnboundLocalError` when the connection file cannot be opened;
`connectOk` is that external outcome.  On success the interrupt signal of the
new widget is wired to the **last** external console widget if and only if its
connection file matches (lines 881-891) — this classification is captured once
in `interrupt_target` — and the widget is appended to `shellwidgets` by
`add_tab` with tab title `get_name()` = `"Console " + client_name`. -/
def register_client (st : PluginState) (connectOk : Bool) (cf : String)
    (kw : Option Nat) (name : String) (newCid : Nat) : Except Unit PluginState :=
  if connectOk then
    let itgt : Option Nat :=
      match st.extconsole.getLast? with
      | some k => if k.connection_file == cf then some k.kid else none
      | none => none
    let c : Client :=
      { cid := newCid, connection_file := cf, kernel_widget_id := kw,
        client_name := name, km_cf := cf, tabText := "Console " ++ name,
        interrupt_target := itgt }
    Except.ok { st with shellwidgets := st.shellwidgets ++ [c] }
  else Except.error ()

/-- Outcome of a `new_client` call.  `invalidIdentifier` is the
`AttributeError` raised by `match.groups()` on a failed interactive match;
`nameCrash` covers the `AttributeError`/`ValueError` of the allocation step;
all non-`created` outcomes leave the registry untouched because they are
raised before any mutation. -/
inductive NCOutcome
  | created
  | cancelled
  | invalidIdentifier
  | nameCrash
  | connectFail
deriving DecidableEq, Repr

/-- Phase one of `new_client` (lines 745-761): take the `connection_file`
argument as is, or run the input dialog and the resolver. -/
def new_client_cf (cfArg : Option String) (dialogInput : Option String) :
    Sum NCOutcome String :=
  match cfArg with
  | some cf => Sum.inr cf
  | none =>
    match dialogInput with
    | none => Sum.inl NCOutcome.cancelled
    | some input =>
      match resolve input with
      | Except.error _ => Sum.inl NCOutcome.invalidIdentifier
      | Except.ok cf => Sum.inr cf

/-- Phase two of `new_client` (lines 763-793): allocate the client name (with
the collision heuristic on `kernel_widget_id`), fall back to scanning the
external console for the kernel widget id, and register. -/
def new_client_with_cf (st : PluginState) (cf : String) (kwArg : Option Nat)
    (connectOk : Bool) (newCid : Nat) : PluginState × NCOutcome :=
  match matchAlloc cf.data with
  | none => (st, NCOutcome.nameCrash)
  | some frag =>
    match allocate (String.mk frag) st.shellwidgets kwArg with
    | none => (st, NCOutcome.nameCrash)
    | some (name, kw1) =>
      let kw2 : Option Nat :=
        match kw1 with
        | some k => some k
        | none => lastMatchKid st.extconsole cf
      match register_client st connectOk cf kw2 name newCid with
      | Except.error _ => (st, NCOutcome.connectFail)
      | Except.ok st2 => (st2, NCOutcome.created)

/-- Embedding of `new_client` (lines 743-793).  `cfArg` is the `connection_file` argument;
when absent, `dialogInput` is the text of the `QInputDialog` (`none` when the
user dismissed it).  `kwArg` is the `kernel_widget_id` argument, `connectOk`
the external supervisor outcome and `newCid` the CPython id of the widget that
would be created. -/
def new_client (st : PluginState) (cfArg : Option String)
    (dialogInput : Option String) (kwArg : Option Nat) (connectOk : Bool)
    (newCid : Nat) : PluginState × NCOutcome :=
  match new_client_cf cfArg dialogInput with
  | Sum.inl o => (st, o)
  | Sum.inr cf => new_client_with_cf st cf kwArg connectOk newCid

/-! ### Lookup and reorder -/

/-- Embedding of `get_ipython_widget` (lines 942-949): first client whose
`kernel_widget_id` equals the argument (the returned client stands for its
`ipython_widget`, which the client owns one-to-one); `ValueError` — modelled
as `Except.error` — when no registered client matches. -/
def get_ipython_widget (st : PluginState) (kernel_widget_id : Option Nat) :
    Except Unit Client :=
  match st.shellwidgets.find? (fun c => c.kernel_widget_id == kernel_widget_id) with
  | some clw => Except.ok clw
  | none => Except.error ()

/-- Embedding of `move_tab` (lines 962-968): `pop(index_from)` followed by
`insert(index_to, shell)`.  An out-of-range `index_from` raises `IndexError`
before any mutation, leaving the list unchanged; Python's `insert` clamps the
destination index to the length. -/
def move_tab (st : PluginState) (ifrom ito : Nat) : PluginState :=
  if h : ifrom < st.shellwidgets.length then
    let c := st.shellwidgets.get ⟨ifrom, h⟩
    let rest := st.shellwidgets.eraseIdx ifrom
    { st with shellwidgets := rest.insertIdx (min ito rest.length) c }
  else st

/-! ### Restart -/

/-- Embedding of `get_shell_index_from_id` of the external console: position of the kernel
widget whose CPython id equals the stored `kernel_widget_id`. -/
def kernelIdxOf (ks : List Kernel) (kw : Option Nat) : Option Nat :=
  match kw with
  | none => none
  | some k => ks.findIdx? (fun kr => kr.kid == k)

/-- Embedding of `rename_ipython_client_tab` (lines 1022-1028): when the new connection
file matches `^kernel-(\d+).json`, the **tab label** of the client with the
given id is set to `"Console " + digits + '/' + chr(65)` — letter `A`
unconditionally, and only the label: `client_name` is not assigned.  When the
id is not registered the source raises before `setTabText`, so the registry is
unchanged in that case too. -/
def rename_ipython_client_tab (st : PluginState) (cf : String)
    (client_widget_id : Nat) : PluginState :=
  match matchRename cf.data with
  | none => st
  | some digits =>
    let newText := "Console " ++ String.mk digits ++ "/" ++ String.mk [Char.ofNat 65]
    { st with
      shellwidgets := st.shellwidgets.map (fun c =>
        if c.cid = client_widget_id then { c with tabText := newText } else c) }

/-- Embedding of `connect_to_new_kernel` (lines 1047-1070), run after the confirmed restart
already started a fresh kernel: take the **current** tab's client, close the
old kernel widget's tab in the external console, rebind the client's
`kernel_manager` to the new connection file and its `kernel_widget_id` to the
new kernel widget's id, then rename the client's tab.  `connection_file` and
`client_name` are not reassigned anywhere in the body.  `none` models the
paths on which the source raises (no current widget, or an old kernel id that
the external console cannot find, handing `index=None` to its close). -/
def connect_to_new_kernel (st : PluginState) (cf : String) (newKid : Nat)
    (currentCid : Nat) : Option PluginState :=
  match st.shellwidgets.find? (fun c => c.cid == currentCid) with
  | none => none
  | some w =>
    match kernelIdxOf st.extconsole w.kernel_widget_id with
    | none => none
    | some idx =>
      let st2 : PluginState :=
        { st with
          extconsole := st.extconsole.eraseIdx idx,
          shellwidgets := st.shellwidgets.map (fun c =>
            if c.cid = currentCid then
              { c with kernel_widget_id := some newKid, km_cf := cf }
            else c) }
      some (rename_ipython_client_tab st2 cf currentCid)

/-- Embedding of `create_new_kernel` (lines 1030-1045) followed by the
`create_ipython_client` callback.  Modelled from the spec: the external
console's `start_ipython_kernel` (not part of this file) appends a fresh
kernel widget to `main.extconsole.shellwidgets`.  On `No` nothing happens. -/
def restart_flow (st : PluginState) (confirm : Bool) (newK : Kernel)
    (currentCid : Nat) : Option PluginState :=
  if confirm then
    connect_to_new_kernel { st with extconsole := st.extconsole ++ [newK] }
      newK.connection_file newK.kid currentCid
  else some st

/-! ### Close -/

/-- The tail of `close_console`: `widget.close()`, `removeTab` (a no-op when
the index is already gone) and `shellwidgets.remove(widget)`, whose
`ValueError` on a missing element is modelled as `none`. -/
def finishRemove (st : PluginState) (k : Nat) (wcid : Nat) :
    Option (PluginState × Nat) :=
  if st.shellwidgets.any (fun c => c.cid == wcid) then
    some ({ st with shellwidgets := st.shellwidgets.eraseP (fun c => c.cid == wcid) }, k)
  else none

/-- Embedding of `close_related_ipython_clients` (lines 935-940): iterate over a snapshot
of `shellwidgets` and close (without `force`) every other client with the same
`connection_file`.  The recursive close is passed in as `closeFn`. -/
def close_related (closeFn : PluginState → Nat → Nat → Option (PluginState × Nat)) :
    List Client → PluginState → Nat → Client → Option (PluginState × Nat)
  | [], st, k, _ => some (st, k)
  | clw :: rest, st, k, w =>
    if clw.cid ≠ w.cid ∧ clw.connection_file = w.connection_file then
      match closeFn st k clw.cid with
      | none => none
      | some (st2, k2) => close_related closeFn rest st2 k2 w
    else close_related closeFn rest st k w

/-- The `close_all` branch of `close_console` (lines 997-999): terminate the
kernel widget at `idx` in the external console, then close all related
clients, then fall through to the removal of the widget itself. -/
def cascadeClose (closeFn : PluginState → Nat → Nat → Option (PluginState × Nat))
    (st : PluginState) (idx : Nat) (k : Nat) (w : Client) :
    Option (PluginState × Nat) :=
  let st2 : PluginState := { st with extconsole := st.extconsole.eraseIdx idx }
  match close_related closeFn st2.shellwidgets st2 k w with
  | none => none
  | some (st3, k3) => finishRemove st3 k3 w.cid

/-- Embedding of `close_console` (lines 970-1004), widget-addressed form (the form every
in-file caller uses).  `oracle` supplies the user's answer to the `k`-th
confirmation dialog of the run; the returned counter tells how many dialogs
were shown.  `fuel` only bounds the recursion through
`close_related_ipython_clients`; `none` models a raised exception (or
exhausted fuel).  With `force` the whole confirmation/cascade block is
skipped; without it, a kernel-widget lookup miss also skips it; `Cancel`
returns before any mutation. -/
def close_console (oracle : Nat → Ans) :
    Nat → PluginState → Nat → Nat → Bool → Option (PluginState × Nat)
  | 0, _, _, _, _ => none
  | fuel + 1, st, k, wcid, force =>
    if st.shellwidgets.isEmpty then some (st, k)
    else
      match st.shellwidgets.find? (fun c => c.cid == wcid) with
      | none => none
      | some w =>
        if force then finishRemove st k wcid
        else
          match kernelIdxOf st.extconsole w.kernel_widget_id with
          | none => finishRemove st k wcid
          | some idx =>
            if st.ask_before_closing then
              match oracle k with
              | Ans.cancel => some (st, k + 1)
              | Ans.no => finishRemove st (k + 1) wcid
              | Ans.yes =>
                cascadeClose (fun s a c => close_console oracle fuel s a c false)
                  st idx (k + 1) w
            else
              cascadeClose (fun s a c => close_console oracle fuel s a c false)
                st idx k w

/-! ### Kernel events -/

/-- Death notification fan-out.  Modelled from the spec: the kernel supervisor
reports the unexpected exit of the kernel reachable through `cf` to every
widget whose kernel manager is connected to it; each such widget's
`custom_restart_kernel_died` signal is wired (register_client lines 901-903)
to that client's own `if_kernel_dies`, which only appends a message to the
console text — so the notified client ids are returned and the state is
returned as is. -/
def kernel_died (st : PluginState) (cf : String) : List Nat × PluginState :=
  (((st.shellwidgets.filter (fun c => c.km_cf == cf)).map (fun c => c.cid)), st)

/-- Effect of an interrupt request on one client. -/
inductive InterruptEffect
  | signal (kid : Nat)
  | cannotInterrupt
deriving DecidableEq, Repr

/-- Embedding of the chain `interrupt_kernel` → `request_interrupt_kernel` →
`custom_interrupt_requested`: the signal was connected at registration time
either to `keyboard_interrupt` of the matching external console widget or to
`interrupt_message` (lines 881-891, 535-542); nothing re-evaluates the
classification afterwards. -/
def request_interrupt (c : Client) : InterruptEffect :=
  match c.interrupt_target with
  | some kid => InterruptEffect.signal kid
  | none => InterruptEffect.cannotInterrupt

/-! ### State predicates -/

/-- The CPython ids of the registered client widgets are pairwise distinct
(`id` is injective on simultaneously live objects). -/
abbrev cidsNodup (st : PluginState) : Prop :=
  (st.shellwidgets.map Client.cid).Nodup

/-- The CPython ids of the external console's kernel widgets are pairwise
distinct. -/
abbrev kidsNodup (st : PluginState) : Prop :=
  (st.extconsole.map Kernel.kid).Nodup

/-- The display names (`client_name`) of the registered sessions are pairwise
distinct. -/
abbrev distinctNames (st : PluginState) : Prop :=
  (st.shellwidgets.map Client.client_name).Nodup

/-- Predicate: `c` is a session `close_related_ipython_clients` would cascade onto when
closing `s`: a different widget with the same `connection_file`. -/
def relatedTo (s c : Client) : Bool :=
  (!(c.cid == s.cid)) && (c.connection_file == s.connection_file)

/-! ### Helper lemmas -/

theorem relatedTo_iff {s c : Client} :
    relatedTo s c = true ↔ (c.cid ≠ s.cid ∧ c.connection_file = s.connection_file) := by
  simp [relatedTo]

theorem cid_inj_of_nodup {l : List Client} (hn : (l.map Client.cid).Nodup) :
    ∀ a ∈ l, ∀ b ∈ l, a.cid = b.cid → a = b := by
  induction l with
  | nil => intro a ha; cases ha
  | cons x t ih =>
    simp only [List.map_cons, List.nodup_cons] at hn
    intro a ha b hb hab
    rcases List.mem_cons.1 ha with rfl | hat
    · rcases List.mem_cons.1 hb with rfl | hbt
      · rfl
      · exact absurd (hab ▸ List.mem_map.2 ⟨b, hbt, rfl⟩) hn.1
    · rcases List.mem_cons.1 hb with rfl | hbt
      · exact absurd (hab ▸ List.mem_map.2 ⟨a, hat, rfl⟩) hn.1
      · exact ih hn.2 a hat b hbt hab

theorem find?_cid_of_nodup {l : List Client} {c : Client}
    (hn : (l.map Client.cid).Nodup) (hc : c ∈ l) :
    l.find? (fun x => x.cid == c.cid) = some c := by
  induction l with
  | nil => cases hc
  | cons a t ih =>
    simp only [List.map_cons, List.nodup_cons] at hn
    rcases List.mem_cons.1 hc with rfl | hct
    · exact List.find?_cons_of_pos _ (by simp)
    · have hne : (a.cid == c.cid) = false := by
        simp only [beq_eq_false_iff_ne]
        intro h
        exact hn.1 (h ▸ List.mem_map.2 ⟨c, hct, rfl⟩)
      rw [List.find?_cons]
      simp only [hne]
      exact ih hn.2 hct

theorem eraseP_cid_eq_filter {l : List Client} (x : Nat)
    (hn : (l.map Client.cid).Nodup) :
    l.eraseP (fun c => c.cid == x) = l.filter (fun c => !(c.cid == x)) := by
  induction l with
  | nil => rfl
  | cons a t ih =>
    simp only [List.map_cons, List.nodup_cons] at hn
    by_cases h : a.cid = x
    · have hb : (a.cid == x) = true := by simp [h]
      simp only [List.eraseP_cons, List.filter_cons, hb, Bool.not_true, cond_true,
        Bool.false_eq_true, if_false]
      refine (List.filter_eq_self.2 ?_).symm
      intro c hc
      simp only [Bool.not_eq_true', beq_eq_false_iff_ne]
      intro hcx
      refine hn.1 ?_
      rw [h, ← hcx]
      exact List.mem_map.2 ⟨c, hc, rfl⟩
    · have hb : (a.cid == x) = false := by simp [h]
      simp only [List.eraseP_cons, List.filter_cons, hb, Bool.not_false, cond_false, if_pos,
        ih hn.2]

theorem kernelIdxOf_eraseIdx_self {ks : List Kernel} {idx kv : Nat}
    (hn : (ks.map Kernel.kid).Nodup)
    (h : kernelIdxOf ks (some kv) = some idx) :
    kernelIdxOf (ks.eraseIdx idx) (some kv) = none := by
  simp only [kernelIdxOf] at h ⊢
  rw [List.findIdx?_eq_none_iff]
  induction ks generalizing idx with
  | nil => simp at h
  | cons a t ih =>
    simp only [List.map_cons, List.nodup_cons] at hn
    rw [List.findIdx?_cons] at h
    by_cases ha : a.kid = kv
    · rw [if_pos (by simp [ha])] at h
      cases h
      intro x hx
      simp only [List.eraseIdx_zero, List.tail_cons] at hx
      simp only [beq_eq_false_iff_ne]
      intro hxk
      refine hn.1 ?_
      rw [ha, ← hxk]
      exact List.mem_map.2 ⟨x, hx, rfl⟩
    · rw [if_neg (by simp [ha]), List.findIdx?_succ] at h
      cases hidx : t.findIdx? (fun kr => kr.kid == kv) with
      | none => rw [hidx] at h; cases h
      | some j =>
        rw [hidx] at h
        cases h
        intro x hx
        simp only [List.eraseIdx_cons_succ] at hx
        rcases List.mem_cons.1 hx with rfl | hxt
        · simp [ha]
        · exact ih hn.2 hidx x hxt

theorem kernelIdxOf_eraseIdx_none {ks : List Kernel} {kw : Option Nat} (idx : Nat)
    (h : kernelIdxOf ks kw = none) :
    kernelIdxOf (ks.eraseIdx idx) kw = none := by
  cases kw with
  | none => rfl
  | some kv =>
    simp only [kernelIdxOf, List.findIdx?_eq_none_iff] at h ⊢
    intro x hx
    exact h x (List.eraseIdx_sublist ks idx |>.mem hx)

theorem allocateGo_some_not_mem {frag : String} {clients : List Client} :
    ∀ {fuel count : Nat} {kw : Option Nat} {name : String} {kwOut : Option Nat},
      allocateGo frag clients fuel count kw = some (name, kwOut) →
      ∀ c ∈ clients, c.client_name ≠ name := by
  intro fuel
  induction fuel with
  | zero => intro count kw name kwOut h; cases h
  | succ n ih =>
    intro count kw name kwOut h c hc
    simp only [allocateGo] at h
    cases hch : pyChr (65 + count) with
    | none => rw [hch] at h; cases h
    | some ch =>
      rw [hch] at h
      simp only at h
      cases hfind : clients.find? (fun x => x.client_name == frag ++ "/" ++ String.mk [ch]) with
      | some clw =>
        rw [hfind] at h
        exact ih h c hc
      | none =>
        rw [hfind] at h
        cases h
        have := List.find?_eq_none.1 hfind c hc
        simpa using this

theorem allocate_some_not_mem {frag : String} {clients : List Client}
    {kw0 : Option Nat} {name : String} {kwOut : Option Nat}
    (h : allocate frag clients kw0 = some (name, kwOut)) :
    ∀ c ∈ clients, c.client_name ≠ name :=
  allocateGo_some_not_mem h

theorem find?_append_first {p : Client → Bool} {c : Client} (l2 : List Client) :
    ∀ l1 : List Client, (∀ d ∈ l1, p d = false) → p c = true →
      (l1 ++ c :: l2).find? p = some c := by
  intro l1
  induction l1 with
  | nil =>
    intro _ hc
    simpa using List.find?_cons_of_pos l2 hc
  | cons a t ih =>
    intro h1 hc
    rw [List.cons_append, List.find?_cons]
    simp only [h1 a (List.mem_cons_self a t)]
    exact ih (fun d hd => h1 d (List.mem_cons_of_mem a hd)) hc

/-! ### Concrete example states (used by witnesses and counterexamples) -/

/-- A client of the running example: session `3764/A` on kernel widget 10. -/
def exClientA : Client :=
  { cid := 1, connection_file := "kernel-3764.json", kernel_widget_id := some 10,
    client_name := "3764/A", km_cf := "kernel-3764.json",
    tabText := "Console 3764/A", interrupt_target := some 10 }

/-- A second client on the same kernel. -/
def exClientB : Client :=
  { cid := 2, connection_file := "kernel-3764.json", kernel_widget_id := some 10,
    client_name := "3764/B", km_cf := "kernel-3764.json",
    tabText := "Console 3764/B", interrupt_target := some 10 }

/-- A client on an unrelated kernel. -/
def exClientC : Client :=
  { cid := 3, connection_file := "kernel-beef.json", kernel_widget_id := some 20,
    client_name := "beef/A", km_cf := "kernel-beef.json",
    tabText := "Console beef/A", interrupt_target := none }

/-- The kernel widget shared by `exClientA`/`exClientB`. -/
def exKernel1 : Kernel := { kid := 10, connection_file := "kernel-3764.json" }

/-- The kernel widget of `exClientC`. -/
def exKernel2 : Kernel := { kid := 20, connection_file := "kernel-beef.json" }

/-- The running example state. -/
def exState : PluginState :=
  { shellwidgets := [exClientA, exClientB, exClientC],
    extconsole := [exKernel1, exKernel2], ask_before_closing := true }

/-! ### C2 -/

/-- C2: the identifier resolver canonicalizes `3764`, `kernel-3764.json` and
`kernel-3764` to `kernel-3764.json`; it fails with `InvalidIdentifier` on the
empty string, and whenever it fails, the `new_client` call that invoked it
returns with the registry (sessions and kernel handles alike) exactly as it
was — no session or handle is created. -/
theorem c2_resolver_canonicalization :
    resolve "3764" = Except.ok "kernel-3764.json" ∧
    resolve "kernel-3764.json" = Except.ok "kernel-3764.json" ∧
    resolve "kernel-3764" = Except.ok "kernel-3764.json" ∧
    resolve "" = Except.error ResolveErr.invalidIdentifier ∧
    (∀ (st : PluginState) (input : String) (kwArg : Option Nat) (ok : Bool) (ncid : Nat),
      resolve input = Except.error ResolveErr.invalidIdentifier →
      new_client st none (some input) kwArg ok ncid = (st, NCOutcome.invalidIdentifier)) := by
  refine ⟨rfl, rfl, rfl, rfl, ?_⟩
  intro st input kwArg ok ncid h
  simp [new_client, new_client_cf, h]

/-- C2 witness: at the concrete failing input `""`, the registry is unchanged
and the outcome is the invalid-identifier failure. -/
theorem c2_witness :
    new_client exState none (some "") none true 99 =
      (exState, NCOutcome.invalidIdentifier) :=
  c2_resolver_canonicalization.2.2.2.2 exState "" none true 99 rfl

/-! ### C3 -/

/-- C3: the name allocator returns `abcd/A` and no matched kernel when no
session exists; when a session already holds `abcd/A` it returns `abcd/B`
together with that session's bound kernel id; and whatever it returns is never
the name of a registered session. -/
theorem c3_name_allocation :
    allocate "abcd" [] none = some ("abcd/A", none) ∧
    (∀ c : Client, c.client_name = "abcd/A" →
      allocate "abcd" [c] none = some ("abcd/B", c.kernel_widget_id)) ∧
    (∀ (frag : String) (clients : List Client) (kw0 : Option Nat) (name : String)
        (kwOut : Option Nat),
      allocate frag clients kw0 = some (name, kwOut) →
      ∀ c ∈ clients, c.client_name ≠ name) := by
  refine ⟨by decide, ?_, fun frag clients kw0 name kwOut h => allocate_some_not_mem h⟩
  intro c hname
  cases c
  simp only at hname
  subst hname
  rfl

/-- C3 witness: the collision case at a concrete session bound to kernel
widget 7. -/
theorem c3_witness :
    allocate "abcd"
      [{ cid := 5, connection_file := "kernel-abcd.json", kernel_widget_id := some 7,
         client_name := "abcd/A", km_cf := "kernel-abcd.json",
         tabText := "Console abcd/A", interrupt_target := none }] none =
      some ("abcd/B", some 7) :=
  c3_name_allocation.2.1 _ rfl

/-! ### C6 -/

/-- C6: when session creation fails with the connect failure (the supervisor
cannot locate/open the connection file), no session is added: the whole
registry state after the failed `new_client` equals the state before it. -/
theorem c6_connect_failure_no_partial_state :
    (∀ (st : PluginState) (cfArg dlg : Option String) (kwArg : Option Nat) (ncid : Nat),
      (new_client st cfArg dlg kwArg false ncid).1 = st) ∧
    (∀ (st : PluginState) (cfArg dlg : Option String) (kwArg : Option Nat)
        (ok : Bool) (ncid : Nat),
      (new_client st cfArg dlg kwArg ok ncid).2 = NCOutcome.connectFail →
      (new_client st cfArg dlg kwArg ok ncid).1 = st) := by
  constructor
  · intro st cfArg dlg kwArg ncid
    simp only [new_client]
    cases new_client_cf cfArg dlg with
    | inl o => rfl
    | inr cf =>
      simp only [new_client_with_cf, register_client, Bool.false_eq_true, if_false]
      split
      · rfl
      split
      · rfl
      rfl
  · intro st cfArg dlg kwArg ok ncid h
    revert h
    simp only [new_client]
    cases new_client_cf cfArg dlg with
    | inl o => intro h; rfl
    | inr cf =>
      simp only [new_client_with_cf]
      split
      · intro h; rfl
      split
      · intro h; rfl
      simp only [register_client]
      cases ok with
      | false => intro h; rfl
      | true => simp

/-- C6 witness: concrete failed creation attempt for `kernel-3764.json` leaves
the running example state untouched. -/
theorem c6_witness :
    (new_client exState (some "kernel-3764.json") none none false 99).1 = exState ∧
    (new_client exState (some "kernel-3764.json") none none false 99).2 =
      NCOutcome.connectFail :=
  ⟨c6_connect_failure_no_partial_state.1 exState (some "kernel-3764.json") none none 99,
   by decide⟩

/-! ### C10 -/

/-- C10: the kernel-widget lookup is partial: it returns the widget of the
first registered session carrying the requested `kernel_widget_id`, and raises
`ValueError` (an error, not an empty result) when no registered session
carries it. -/
theorem c10_widget_lookup (st : PluginState) (kw : Option Nat) :
    ((∀ c ∈ st.shellwidgets, c.kernel_widget_id ≠ kw) →
      get_ipython_widget st kw = Except.error ()) ∧
    (∀ (l1 l2 : List Client) (c : Client),
      st.shellwidgets = l1 ++ c :: l2 →
      (∀ d ∈ l1, d.kernel_widget_id ≠ kw) →
      c.kernel_widget_id = kw →
      get_ipython_widget st kw = Except.ok c) := by
  constructor
  · intro h
    have : st.shellwidgets.find? (fun c => c.kernel_widget_id == kw) = none := by
      rw [List.find?_eq_none]
      intro c hc
      simp only [beq_iff_eq]
      exact h c hc
    simp [get_ipython_widget, this]
  · intro l1 l2 c hsw h1 hc
    have : st.shellwidgets.find? (fun c => c.kernel_widget_id == kw) = some c := by
      rw [hsw]
      refine find?_append_first l2 l1 ?_ (by simp [hc])
      intro d hd
      simp only [beq_eq_false_iff_ne]
      exact h1 d hd
    simp [get_ipython_widget, this]

/-- C10 witness: in the running example, looking up kernel widget 10 yields
the first matching session (`exClientA`) and looking up the stale id 77 is an
error. -/
theorem c10_witness :
    get_ipython_widget exState (some 10) = Except.ok exClientA ∧
    get_ipython_widget exState (some 77) = Except.error () :=
  ⟨(c10_widget_lookup exState (some 10)).2 [] [exClientB, exClientC] exClientA
      (by decide) (by intro d hd; cases hd) (by decide),
   (c10_widget_lookup exState (some 77)).1 (by decide)⟩

/-! ### C8 -/

theorem count_cid_filter {cf : String} {l : List Client}
    (hn : (l.map Client.cid).Nodup) :
    ∀ c ∈ l, ((l.filter (fun x => x.km_cf == cf)).map Client.cid).count c.cid =
      if c.km_cf = cf then 1 else 0 := by
  induction l with
  | nil => intro c hc; cases hc
  | cons a t ih =>
    simp only [List.map_cons, List.nodup_cons] at hn
    intro c hc
    have hsub : ∀ x : Client, x.cid ∈ (t.filter (fun y => y.km_cf == cf)).map Client.cid →
        x.cid ∈ t.map Client.cid := by
      intro x hx
      rcases List.mem_map.1 hx with ⟨y, hy, hyx⟩
      exact hyx ▸ List.mem_map.2 ⟨y, (List.mem_filter.1 hy).1, rfl⟩
    rcases List.mem_cons.1 hc with rfl | hct
    · have hzero : ((t.filter (fun y => y.km_cf == cf)).map Client.cid).count c.cid = 0 := by
        rw [List.count_eq_zero]
        intro hmem
        exact hn.1 (hsub c hmem)
      by_cases h : c.km_cf = cf
      · rw [List.filter_cons_of_pos (by simp [h]), if_pos h, List.map_cons,
          List.count_cons_self, hzero]
      · rw [List.filter_cons_of_neg (by simp [h]), if_neg h, hzero]
    · have hne : a.cid ≠ c.cid := by
        intro h
        exact hn.1 (h ▸ List.mem_map.2 ⟨c, hct, rfl⟩)
      by_cases h : a.km_cf = cf
      · rw [List.filter_cons_of_pos (by simp [h]), List.map_cons,
          List.count_cons_of_ne (fun hh => hne hh.symm), ih hn.2 c hct]
      · rw [List.filter_cons_of_neg (by simp [h]), ih hn.2 c hct]

/-- C8: a kernel-death event for the kernel reached through `cf` notifies each
session bound to that kernel exactly once — `n` bound sessions yield `n`
notifications — and removes nothing: the registry state after the event is the
state before it. -/
theorem c8_kernel_death_notifications (st : PluginState) (cf : String)
    (h : cidsNodup st) :
    (kernel_died st cf).2 = st ∧
    (kernel_died st cf).1.length =
      (st.shellwidgets.filter (fun c => c.km_cf == cf)).length ∧
    (∀ c ∈ st.shellwidgets,
      (kernel_died st cf).1.count c.cid = if c.km_cf = cf then 1 else 0) := by
  refine ⟨rfl, by simp [kernel_died], ?_⟩
  intro c hc
  exact count_cid_filter h c hc

/-- C8 witness: in a state with three sessions bound to kernel
`kernel-3764.json` and one bound elsewhere, the death event yields exactly the
three bound session ids (one notification each) and leaves the state as is. -/
theorem c8_witness :
    (kernel_died exState "kernel-3764.json").1 = [1, 2] ∧
    (kernel_died exState "kernel-3764.json").2 = exState ∧
    (kernel_died exState "kernel-3764.json").1.count 1 = 1 ∧
    (kernel_died exState "kernel-3764.json").1.count 3 = 0 := by
  refine ⟨by decide, (c8_kernel_death_notifications exState "kernel-3764.json"
    (by decide)).1, ?_, ?_⟩
  · have := (c8_kernel_death_notifications exState "kernel-3764.json"
      (by decide)).2.2 exClientA (by decide)
    simpa using this
  · have := (c8_kernel_death_notifications exState "kernel-3764.json"
      (by decide)).2.2 exClientC (by decide)
    simpa using this

/-! ### C9 -/

/-- The state for the C9 counterexample: two supervised kernels, the client
will connect to the older one. -/
def stC9 : PluginState :=
  { shellwidgets := [],
    extconsole := [{ kid := 10, connection_file := "kernel-aaaa.json" },
                   { kid := 20, connection_file := "kernel-bbbb.json" }],
    ask_before_closing := true }

/-- C9 counterexample: the kernel reached through `kernel-aaaa.json` *is*
locally supervised (a supervisor record exists in the external console list),
and the freshly registered session is even bound to it
(`kernel_widget_id = 10` via the fallback scan), yet its interrupt wiring is
the cannot-interrupt notification, because registration consults only the
**last** external console widget.  This refutes "sends an interrupt signal iff
the kernel is locally supervised". -/
theorem c9_counterexample :
    stC9.extconsole.any (fun k => k.connection_file == "kernel-aaaa.json") = true ∧
    (new_client stC9 (some "kernel-aaaa.json") none none true 1).1.shellwidgets.map
      Client.kernel_widget_id = [some 10] ∧
    (new_client stC9 (some "kernel-aaaa.json") none none true 1).1.shellwidgets.map
      request_interrupt = [InterruptEffect.cannotInterrupt] := by decide

/-- C9 amended: the locally-supervised-vs-remote classification is made once,
at registration: the interrupt request of the created session sends a signal
to the kernel widget that was the most recently opened external console widget
at registration time if and only if that widget's connection file equals the
session's; in every other case (no widgets, or a non-matching last widget,
even when a matching older widget exists) the session gets the informational
cannot-interrupt notification.  Nothing after registration re-evaluates this:
the right-hand side depends only on the registration-time state. -/
theorem c9_interrupt_last_widget_only (st st2 : PluginState) (cf : String)
    (kw : Option Nat) (name : String) (ncid : Nat)
    (h : register_client st true cf kw name ncid = Except.ok st2)
    (c : Client) (hc : st2.shellwidgets.getLast? = some c) :
    request_interrupt c =
      (match st.extconsole.getLast? with
       | some kk =>
         if kk.connection_file == cf then InterruptEffect.signal kk.kid
         else InterruptEffect.cannotInterrupt
       | none => InterruptEffect.cannotInterrupt) := by
  simp only [register_client, if_pos] at h
  cases h
  rw [List.getLast?_concat] at hc
  cases hc
  simp only [request_interrupt]
  cases hlast : st.extconsole.getLast? with
  | none => rfl
  | some kk =>
    by_cases hcf : (kk.connection_file == cf) = true
    · simp [hcf]
    · simp [hcf]

/-- The client produced by the C9 witness registration. -/
def c9WClient : Client :=
  { cid := 9, connection_file := "kernel-beef.json", kernel_widget_id := some 20,
    client_name := "beef/B", km_cf := "kernel-beef.json",
    tabText := "Console beef/B", interrupt_target := some 20 }

/-- The state produced by the C9 witness registration. -/
def c9WState : PluginState :=
  { exState with shellwidgets := exState.shellwidgets ++ [c9WClient] }

/-- C9 witness: registering a client for `exKernel2`'s connection file in the
running example state (where `exKernel2` is the last opened kernel widget)
yields a session whose interrupt goes to kernel widget 20. -/
theorem c9_witness :
    request_interrupt c9WClient = InterruptEffect.signal 20 := by
  have := c9_interrupt_last_widget_only exState c9WState "kernel-beef.json"
    (some 20) "beef/B" 9 rfl c9WClient (by decide)
  simpa using this

/-! ### C4 -/

/-- The state for the C4 counterexample: one single session, bound to the one
supervised kernel. -/
def stC4 : PluginState :=
  { shellwidgets := [exClientA], extconsole := [exKernel1],
    ask_before_closing := true }

/-- C4 counterexample: `exClientA` is the *last* (only) session bound to
kernel widget 10, so the claim requires the forced close to terminate that
kernel; the code's forced close removes the session but leaves the kernel
supervised (`extconsole` unchanged), because `force=True` skips the whole
kernel/cascade block instead of being treated as "close kernel and all related
sessions". -/
theorem c4_counterexample :
    stC4.shellwidgets = [exClientA] ∧
    exClientA.kernel_widget_id = some exKernel1.kid ∧
    close_console (fun _ => Ans.yes) 5 stC4 0 exClientA.cid true =
      some ({ shellwidgets := [], extconsole := [exKernel1],
              ask_before_closing := true }, 0) := by decide

/-- C4 amended: closing a registered session with `force=true` removes exactly
that session from the registry — no other session is removed — asks no
question, and **never** terminates the kernel (nor any related session): the
kernel/cascade logic runs only on unforced closes. -/
theorem c4_force_close_removes_only_session (st : PluginState) (oracle : Nat → Ans)
    (fuel k : Nat) (c : Client) (hmem : c ∈ st.shellwidgets) (hn : cidsNodup st) :
    close_console oracle (fuel + 1) st k c.cid true =
      some ({ st with shellwidgets :=
        st.shellwidgets.filter (fun x => !(x.cid == c.cid)) }, k) ∧
    (∀ st2 k2, close_console oracle (fuel + 1) st k c.cid true = some (st2, k2) →
      st2.extconsole = st.extconsole ∧ k2 = k ∧
      (∀ x ∈ st2.shellwidgets, x ∈ st.shellwidgets ∧ x.cid ≠ c.cid) ∧
      (∀ x ∈ st.shellwidgets, x.cid ≠ c.cid → x ∈ st2.shellwidgets)) := by
  have hne : st.shellwidgets.isEmpty = false := by
    rw [List.isEmpty_eq_false]
    intro h
    rw [h] at hmem
    cases hmem
  have hfind : st.shellwidgets.find? (fun x => x.cid == c.cid) = some c :=
    find?_cid_of_nodup hn hmem
  have hany : st.shellwidgets.any (fun x => x.cid == c.cid) = true :=
    List.any_eq_true.2 ⟨c, hmem, by simp⟩
  have heq : close_console oracle (fuel + 1) st k c.cid true =
      some ({ st with shellwidgets :=
        st.shellwidgets.filter (fun x => !(x.cid == c.cid)) }, k) := by
    rw [close_console, hne]
    simp only [Bool.false_eq_true, if_false, hfind, if_pos, finishRemove, hany, if_true,
      eraseP_cid_eq_filter c.cid hn]
  refine ⟨heq, ?_⟩
  intro st2 k2 h2
  rw [heq] at h2
  cases h2
  refine ⟨rfl, rfl, ?_, ?_⟩
  · intro x hx
    have hx2 := List.mem_filter.1 hx
    refine ⟨hx2.1, ?_⟩
    have := hx2.2
    simpa using this
  · intro x hx hxc
    exact List.mem_filter.2 ⟨hx, by simpa using hxc⟩

/-- C4 witness: forced close of `exClientB` in the running example removes
exactly that session and keeps both kernels. -/
theorem c4_witness :
    close_console (fun _ => Ans.cancel) 7 exState 0 exClientB.cid true =
      some ({ exState with shellwidgets :=
        exState.shellwidgets.filter (fun x => !(x.cid == exClientB.cid)) }, 0) :=
  (c4_force_close_removes_only_session exState (fun _ => Ans.cancel) 6 0 exClientB
    (by decide) (by decide)).1

/-! ### C5 -/

theorem close_console_plain (oracle : Nat → Ans) (fuel k : Nat) {st : PluginState}
    {c : Client} (hmem : c ∈ st.shellwidgets) (hn : cidsNodup st)
    (hdead : kernelIdxOf st.extconsole c.kernel_widget_id = none) :
    close_console oracle (fuel + 1) st k c.cid false =
      some ({ st with shellwidgets :=
        st.shellwidgets.filter (fun x => !(x.cid == c.cid)) }, k) := by
  have hne : st.shellwidgets.isEmpty = false := by
    rw [List.isEmpty_eq_false]
    intro h
    rw [h] at hmem
    cases hmem
  have hfind : st.shellwidgets.find? (fun x => x.cid == c.cid) = some c :=
    find?_cid_of_nodup hn hmem
  have hany : st.shellwidgets.any (fun x => x.cid == c.cid) = true :=
    List.any_eq_true.2 ⟨c, hmem, by simp⟩
  rw [close_console, hne]
  simp only [Bool.false_eq_true, if_false, hfind, hdead, finishRemove, hany, if_true,
    eraseP_cid_eq_filter c.cid hn]

theorem close_related_all_dead (oracle : Nat → Ans) (fuel : Nat) (s : Client) :
    ∀ (l : List Client) (st : PluginState) (k : Nat),
      cidsNodup st →
      (l.map Client.cid).Nodup →
      (∀ clw ∈ l, relatedTo s clw = true → clw ∈ st.shellwidgets) →
      (∀ clw ∈ l, relatedTo s clw = true →
        kernelIdxOf st.extconsole clw.kernel_widget_id = none) →
      (∀ clw ∈ l, ∀ c ∈ st.shellwidgets, c.cid = clw.cid → c = clw) →
      close_related (fun s2 a c2 => close_console oracle (fuel + 1) s2 a c2 false)
          l st k s =
        some ({ st with shellwidgets := st.shellwidgets.filter (fun c => !(relatedTo s c && l.any (fun d => d.cid == c.cid))) }, k) := by
  intro l
  induction l with
  | nil =>
    intro st k _ _ _ _ _
    simp [close_related]
  | cons clw rest ih =>
    intro st k hstN hlN hmem hdead huniq
    simp only [List.map_cons, List.nodup_cons] at hlN
    by_cases hrel : relatedTo s clw = true
    · have hrelP : clw.cid ≠ s.cid ∧ clw.connection_file = s.connection_file :=
        relatedTo_iff.1 hrel
      have hclwmem : clw ∈ st.shellwidgets := hmem clw (List.mem_cons_self clw rest) hrel
      rw [close_related, if_pos hrelP,
        close_console_plain oracle fuel k hclwmem hstN
          (hdead clw (List.mem_cons_self clw rest) hrel)]
      have hsub : ∀ x : Client,
          x ∈ st.shellwidgets.filter (fun y => !(y.cid == clw.cid)) →
          x ∈ st.shellwidgets := fun x hx => (List.mem_filter.1 hx).1
      refine Eq.trans (ih ({ st with shellwidgets := st.shellwidgets.filter (fun x => !(x.cid == clw.cid)) }) k
          (hstN.sublist ((st.shellwidgets.filter_sublist).map Client.cid))
          hlN.2
          (fun c2 hc2 hr2 => List.mem_filter.2
            ⟨hmem c2 (List.mem_cons_of_mem clw hc2) hr2, by
              simp only [Bool.not_eq_true', beq_eq_false_iff_ne]
              intro hcc
              exact hlN.1 (hcc ▸ List.mem_map.2 ⟨c2, hc2, rfl⟩)⟩)
          (fun c2 hc2 hr2 => hdead c2 (List.mem_cons_of_mem clw hc2) hr2)
          (fun c2 hc2 c3 hc3 hcc =>
            huniq c2 (List.mem_cons_of_mem clw hc2) c3 (hsub c3 hc3) hcc)) ?_
      have hpt : ∀ c ∈ st.shellwidgets,
          ((!(relatedTo s c && rest.any (fun d => d.cid == c.cid))) &&
            (!(c.cid == clw.cid))) =
          (!(relatedTo s c && (clw :: rest).any (fun d => d.cid == c.cid))) := by
        intro c hc
        by_cases hcc : c.cid = clw.cid
        · have hceq : c = clw := huniq clw (List.mem_cons_self clw rest) c hc hcc
          subst hceq
          simp [hrel, List.any_cons]
        · have h1 : (c.cid == clw.cid) = false := by simp [hcc]
          have h2 : (clw.cid == c.cid) = false := by
            simp only [beq_eq_false_iff_ne]
            exact fun h => hcc h.symm
          simp only [List.any_cons, h1, h2, Bool.not_false, Bool.and_true, Bool.false_or]
      have hlist : (st.shellwidgets.filter (fun x => !(x.cid == clw.cid))).filter
            (fun c => !(relatedTo s c && rest.any (fun d => d.cid == c.cid))) =
          st.shellwidgets.filter
            (fun c => !(relatedTo s c && (clw :: rest).any (fun d => d.cid == c.cid))) := by
        rw [List.filter_filter]
        exact List.filter_congr hpt
      simp only [hlist]
    · have hrelP : ¬(clw.cid ≠ s.cid ∧ clw.connection_file = s.connection_file) :=
        fun hP => hrel (relatedTo_iff.2 hP)
      rw [close_related, if_neg hrelP,
        ih st k hstN hlN.2
          (fun c2 hc2 hr2 => hmem c2 (List.mem_cons_of_mem clw hc2) hr2)
          (fun c2 hc2 hr2 => hdead c2 (List.mem_cons_of_mem clw hc2) hr2)
          (fun c2 hc2 c3 hc3 hcc => huniq c2 (List.mem_cons_of_mem clw hc2) c3 hc3 hcc)]
      have hpt : ∀ c ∈ st.shellwidgets,
          (!(relatedTo s c && rest.any (fun d => d.cid == c.cid))) =
          (!(relatedTo s c && (clw :: rest).any (fun d => d.cid == c.cid))) := by
        intro c hc
        simp only [List.any_cons]
        cases hcc : (clw.cid == c.cid) with
        | false => simp
        | true =>
          have hceq : c = clw := huniq clw (List.mem_cons_self clw rest) c hc
            (beq_iff_eq.1 hcc).symm
          have hrelf : relatedTo s clw = false := by simpa using hrel
          have hrelc : relatedTo s c = false := by rw [hceq]; exact hrelf
          simp [hrelc]
      have hlist : st.shellwidgets.filter
            (fun c => !(relatedTo s c && rest.any (fun d => d.cid == c.cid))) =
          st.shellwidgets.filter
            (fun c => !(relatedTo s c && (clw :: rest).any (fun d => d.cid == c.cid))) :=
        List.filter_congr hpt
      simp only [hlist]

theorem cascadeClose_complete (oracle : Nat → Ans) (fuel k idx : Nat)
    {st : PluginState} {s : Client}
    (hmem : s ∈ st.shellwidgets) (hstN : cidsNodup st) (hkN : kidsNodup st)
    (hidx : kernelIdxOf st.extconsole s.kernel_widget_id = some idx)
    (hcons : ∀ t ∈ st.shellwidgets, relatedTo s t = true →
      t.kernel_widget_id = s.kernel_widget_id ∨
      kernelIdxOf st.extconsole t.kernel_widget_id = none) :
    cascadeClose (fun s2 a c2 => close_console oracle (fuel + 1) s2 a c2 false)
        st idx k s =
      some ({ st with
        shellwidgets := st.shellwidgets.filter
          (fun c => !(c.connection_file == s.connection_file)),
        extconsole := st.extconsole.eraseIdx idx }, k) := by
  cases hkw : s.kernel_widget_id with
  | none => rw [hkw] at hidx; cases hidx
  | some kv =>
    rw [hkw] at hidx
    have hdead2 : ∀ t ∈ st.shellwidgets, relatedTo s t = true →
        kernelIdxOf (st.extconsole.eraseIdx idx) t.kernel_widget_id = none := by
      intro t ht hrt
      rcases hcons t ht hrt with h1 | h2
      · rw [h1, hkw]
        exact kernelIdxOf_eraseIdx_self hkN hidx
      · exact kernelIdxOf_eraseIdx_none idx h2
    simp only [cascadeClose]
    rw [close_related_all_dead oracle fuel s st.shellwidgets
        { st with extconsole := st.extconsole.eraseIdx idx } k
        hstN hstN (fun clw hc _ => hc) hdead2
        (fun clw hc c2 hc2 hcc => cid_inj_of_nodup hstN c2 hc2 clw hc hcc)]
    have hsmem : s ∈ st.shellwidgets.filter
        (fun c => !(relatedTo s c && st.shellwidgets.any (fun d => d.cid == c.cid))) := by
      refine List.mem_filter.2 ⟨hmem, ?_⟩
      simp [relatedTo]
    have hfn : (st.shellwidgets.filter
        (fun c => !(relatedTo s c && st.shellwidgets.any (fun d => d.cid == c.cid)))).any
          (fun x => x.cid == s.cid) = true :=
      List.any_eq_true.2 ⟨s, hsmem, by simp⟩
    have hfnodup : ((st.shellwidgets.filter
        (fun c => !(relatedTo s c && st.shellwidgets.any (fun d => d.cid == c.cid)))).map
          Client.cid).Nodup :=
      hstN.sublist ((st.shellwidgets.filter_sublist).map Client.cid)
    simp only [finishRemove, hfn, if_true, eraseP_cid_eq_filter s.cid hfnodup]
    have hpt : ∀ c ∈ st.shellwidgets,
        ((!(c.cid == s.cid)) &&
          (!(relatedTo s c && st.shellwidgets.any (fun d => d.cid == c.cid)))) =
        (!(c.connection_file == s.connection_file)) := by
      intro c hc
      by_cases hcc : c.cid = s.cid
      · have hceq : c = s := cid_inj_of_nodup hstN c hc s hmem hcc
        subst hceq
        simp
      · have h1 : (c.cid == s.cid) = false := by simp [hcc]
        have hanyc : st.shellwidgets.any (fun d => d.cid == c.cid) = true :=
          List.any_eq_true.2 ⟨c, hc, by simp⟩
        simp [relatedTo, h1, hanyc]
    have hlist : (st.shellwidgets.filter
          (fun c => !(relatedTo s c && st.shellwidgets.any (fun d => d.cid == c.cid)))).filter
            (fun x => !(x.cid == s.cid)) =
        st.shellwidgets.filter (fun c => !(c.connection_file == s.connection_file)) := by
      rw [List.filter_filter]
      exact List.filter_congr hpt
    simp only [hlist]

/-- C5: atomicity of `close_console` with respect to the registry, for a
registered session `s` whose kernel widget is locally supervised, in a state
with consistent bindings (any session sharing `s`'s connection file is either
bound to the same kernel widget or to one that is no longer supervised — the
only bindings the plugin itself constructs).  If the user answers Cancel to
the close confirmation, the call returns with the state exactly unchanged: no
session removed, no kernel terminated, and only the one dialog shown.
Otherwise every session decided upon is removed, never a proper nonempty
subset: on Yes (and likewise when `ask_before_closing` is off, which the close
policy treats as close-everything) the removed sessions are exactly those
sharing `s`'s connection file and the kernel widget is terminated; on No
exactly `s` is removed and the kernel survives. -/
theorem c5_close_atomicity (st : PluginState) (oracle : Nat → Ans)
    (fuel k idx : Nat) (s : Client)
    (hmem : s ∈ st.shellwidgets) (hstN : cidsNodup st) (hkN : kidsNodup st)
    (hidx : kernelIdxOf st.extconsole s.kernel_widget_id = some idx)
    (hcons : ∀ t ∈ st.shellwidgets, relatedTo s t = true →
      t.kernel_widget_id = s.kernel_widget_id ∨
      kernelIdxOf st.extconsole t.kernel_widget_id = none) :
    (st.ask_before_closing = true → oracle k = Ans.cancel →
      close_console oracle (fuel + 1 + 1) st k s.cid false = some (st, k + 1)) ∧
    (st.ask_before_closing = true → oracle k = Ans.yes →
      close_console oracle (fuel + 1 + 1) st k s.cid false =
        some ({ st with shellwidgets := st.shellwidgets.filter (fun c => !(c.connection_file == s.connection_file)), extconsole := st.extconsole.eraseIdx idx }, k + 1)) ∧
    (st.ask_before_closing = true → oracle k = Ans.no →
      close_console oracle (fuel + 1 + 1) st k s.cid false =
        some ({ st with shellwidgets := st.shellwidgets.filter (fun c => !(c.cid == s.cid)) }, k + 1)) ∧
    (st.ask_before_closing = false →
      close_console oracle (fuel + 1 + 1) st k s.cid false =
        some ({ st with shellwidgets := st.shellwidgets.filter (fun c => !(c.connection_file == s.connection_file)), extconsole := st.extconsole.eraseIdx idx }, k)) := by
  have hne : st.shellwidgets.isEmpty = false := by
    rw [List.isEmpty_eq_false]
    intro h
    rw [h] at hmem
    cases hmem
  have hfind : st.shellwidgets.find? (fun x => x.cid == s.cid) = some s :=
    find?_cid_of_nodup hstN hmem
  have hany : st.shellwidgets.any (fun x => x.cid == s.cid) = true :=
    List.any_eq_true.2 ⟨s, hmem, by simp⟩
  refine ⟨?_, ?_, ?_, ?_⟩
  · intro hask hc
    rw [close_console, hne]
    simp only [Bool.false_eq_true, if_false, hfind, hidx, hask, if_true, hc]
  · intro hask hc
    rw [close_console, hne]
    simp only [Bool.false_eq_true, if_false, hfind, hidx, hask, if_true, hc]
    have h2 := cascadeClose_complete oracle fuel (k + 1) idx hmem hstN hkN hidx hcons
    rw [hask] at h2
    exact h2
  · intro hask hc
    rw [close_console, hne]
    simp only [Bool.false_eq_true, if_false, hfind, hidx, hask, if_true, hc, finishRemove,
      hany, eraseP_cid_eq_filter s.cid hstN]
  · intro hask
    rw [close_console, hne]
    simp only [Bool.false_eq_true, if_false, hfind, hidx, hask]
    have h2 := cascadeClose_complete oracle fuel k idx hmem hstN hkN hidx hcons
    rw [hask] at h2
    exact h2

/-- C5 witness: in the running example (sessions A and B share kernel widget
10, session C is on kernel widget 20), closing A with answer Cancel changes
nothing; closing A with answer Yes removes exactly A and B together with
kernel widget 10, leaving C and kernel widget 20. -/
theorem c5_witness :
    close_console (fun _ => Ans.cancel) 9 exState 0 exClientA.cid false =
      some (exState, 1) ∧
    close_console (fun _ => Ans.yes) 9 exState 0 exClientA.cid false =
      some ({ shellwidgets := [exClientC], extconsole := [exKernel2],
              ask_before_closing := true }, 1) := by
  have h := c5_close_atomicity exState (fun _ => Ans.yes) 7 0 0 exClientA
    (by decide) (by decide) (by decide) (by decide) (by decide)
  have hcancel := c5_close_atomicity exState (fun _ => Ans.cancel) 7 0 0 exClientA
    (by decide) (by decide) (by decide) (by decide) (by decide)
  refine ⟨hcancel.1 rfl rfl, ?_⟩
  rw [h.2.1 rfl rfl]
  rfl

/-! ### C7 -/

/-- The session of the C7 counterexample: display name `5678/A`, bound to
kernel widget 10 before the restart. -/
def c7Client : Client :=
  { cid := 1, connection_file := "kernel-5678.json", kernel_widget_id := some 10,
    client_name := "5678/A", km_cf := "kernel-5678.json",
    tabText := "Console 5678/A", interrupt_target := some 10 }

/-- The C7 counterexample state: the restarted kernel widget (id 20, connection
file `kernel-9999.json`) has already been started by `create_new_kernel`. -/
def stC7 : PluginState :=
  { shellwidgets := [c7Client],
    extconsole := [{ kid := 10, connection_file := "kernel-5678.json" },
                   { kid := 20, connection_file := "kernel-9999.json" }],
    ask_before_closing := true }

/-- C7 counterexample: after the session restarts onto the new kernel
`kernel-9999.json`, the claim requires its display name to be regenerated from
the new kernel's fragment via the allocator (which, with no other session
registered, yields `9999/A`); the code leaves `client_name` at `5678/A` — no
regeneration and no uniqueness re-validation happens (only the tab label is
overwritten). -/
theorem c7_counterexample :
    (connect_to_new_kernel stC7 "kernel-9999.json" 20 1).map
      (fun s2 => s2.shellwidgets.map Client.client_name) = some ["5678/A"] ∧
    allocate "9999" [] none = some ("9999/A", none) ∧
    ¬("5678/A" = "9999/A") := by decide

theorem rename_preserves (st : PluginState) (cf : String) (cwid : Nat) :
    (rename_ipython_client_tab st cf cwid).shellwidgets.map Client.cid =
      st.shellwidgets.map Client.cid ∧
    (rename_ipython_client_tab st cf cwid).shellwidgets.map Client.client_name =
      st.shellwidgets.map Client.client_name ∧
    (rename_ipython_client_tab st cf cwid).extconsole = st.extconsole := by
  unfold rename_ipython_client_tab
  cases matchRename cf.data with
  | none => exact ⟨rfl, rfl, rfl⟩
  | some digits =>
    refine ⟨?_, ?_, rfl⟩ <;>
    · simp only [List.map_map]
      refine List.map_congr_left ?_
      intro c hc
      by_cases h : c.cid = cwid <;> simp [h]

theorem map_cid_lookup {l : List Client} (F : Client → Client)
    (hF : ∀ x, (F x).cid = x.cid) (hn : (l.map Client.cid).Nodup)
    {c : Client} (hc : c ∈ l) :
    ∀ c2 ∈ l.map F, c2.cid = c.cid → c2 = F c := by
  intro c2 hc2 hcc
  rcases List.mem_map.1 hc2 with ⟨c3, hc3, rfl⟩
  rw [hF c3] at hcc
  rw [cid_inj_of_nodup hn c3 hc3 c hc hcc]

/-- C7 amended: a successful restart from the current session `c` keeps the
session registered with its identity and display name unchanged — the map of
session ids and the map of `client_name`s over the registry are untouched —
while its bound kernel widget is rebound to the new one (`kernel_widget_id`
becomes the new id, so it differs from the old whenever the new id is fresh,
and the kernel manager targets the new connection file); the old kernel widget
is closed; and the only renaming performed is the **tab label**, set to
`Console <digits>/A` (letter `A` unconditionally, no uniqueness
re-validation) when the new connection file matches `^kernel-(\\d+).json`;
`client_name` and `connection_file` are not regenerated. -/
theorem c7_restart_rebinds_without_name_regeneration (st : PluginState)
    (c : Client) (newCf : String) (newKid : Nat)
    (hmem : c ∈ st.shellwidgets) (hstN : cidsNodup st) :
    ∀ st2, connect_to_new_kernel st newCf newKid c.cid = some st2 →
      st2.shellwidgets.map Client.cid = st.shellwidgets.map Client.cid ∧
      st2.shellwidgets.map Client.client_name = st.shellwidgets.map Client.client_name ∧
      (∀ c2 ∈ st2.shellwidgets, c2.cid = c.cid →
        c2.kernel_widget_id = some newKid ∧ c2.km_cf = newCf ∧
        c2.client_name = c.client_name ∧ c2.connection_file = c.connection_file ∧
        (c.kernel_widget_id ≠ some newKid → c2.kernel_widget_id ≠ c.kernel_widget_id)) ∧
      (∀ digits, matchRename newCf.data = some digits →
        ∀ c2 ∈ st2.shellwidgets, c2.cid = c.cid →
          c2.tabText = "Console " ++ String.mk digits ++ "/" ++ String.mk [Char.ofNat 65]) := by
  intro st2 h
  unfold connect_to_new_kernel at h
  rw [find?_cid_of_nodup hstN hmem] at h
  simp only at h
  cases hidx : kernelIdxOf st.extconsole c.kernel_widget_id with
  | none => rw [hidx] at h; cases h
  | some idx =>
    rw [hidx] at h
    simp only [Option.some.injEq] at h
    subst h
    have hmid : ∀ x : Client,
        ((fun x => if x.cid = c.cid then
          { x with kernel_widget_id := some newKid, km_cf := newCf } else x) x).cid
        = x.cid := by
      intro x
      by_cases hx : x.cid = c.cid <;> simp [hx]
    obtain ⟨hr1, hr2, _⟩ := rename_preserves ({ st with extconsole := st.extconsole.eraseIdx idx, shellwidgets := st.shellwidgets.map (fun x => if x.cid = c.cid then { x with kernel_widget_id := some newKid, km_cf := newCf } else x) }) newCf c.cid
    refine ⟨?_, ?_, ?_, ?_⟩
    · rw [hr1]
      simp only [List.map_map]
      exact List.map_congr_left (fun x _ => hmid x)
    · rw [hr2]
      simp only [List.map_map]
      refine List.map_congr_left ?_
      intro x _
      by_cases hx : x.cid = c.cid <;> simp [hx]
    · intro c2 hc2 hcc
      revert hc2
      unfold rename_ipython_client_tab
      cases matchRename newCf.data with
      | none =>
        intro hc2
        have hud := map_cid_lookup _ hmid hstN hmem c2 hc2 hcc
        rw [hud]
        simp
        exact fun hne hh => hne hh.symm
      | some digits =>
        intro hc2
        simp only [List.map_map] at hc2
        have hcomp : ∀ x : Client,
            (((fun y : Client => if y.cid = c.cid then { y with tabText := "Console " ++ String.mk digits ++ "/" ++ String.mk [Char.ofNat 65] } else y) ∘ (fun z : Client => if z.cid = c.cid then { z with kernel_widget_id := some newKid, km_cf := newCf } else z)) x).cid = x.cid := by
          intro x
          simp only [Function.comp_apply]
          by_cases hx : x.cid = c.cid <;> simp [hx]
        have hud := map_cid_lookup _ hcomp hstN hmem c2 hc2 hcc
        rw [hud]
        simp
        exact fun hne hh => hne hh.symm
    · intro digits hdig c2 hc2 hcc
      revert hc2
      unfold rename_ipython_client_tab
      rw [hdig]
      intro hc2
      simp only [List.map_map] at hc2
      have hcomp : ∀ x : Client,
          (((fun y : Client => if y.cid = c.cid then { y with tabText := "Console " ++ String.mk digits ++ "/" ++ String.mk [Char.ofNat 65] } else y) ∘ (fun z : Client => if z.cid = c.cid then { z with kernel_widget_id := some newKid, km_cf := newCf } else z)) x).cid = x.cid := by
        intro x
        simp only [Function.comp_apply]
        by_cases hx : x.cid = c.cid <;> simp [hx]
      have hud := map_cid_lookup _ hcomp hstN hmem c2 hc2 hcc
      rw [hud]
      simp

/-- C7 witness: for the concrete restart of the C7 state onto
`kernel-9999.json` (fresh kernel widget id 20), the session survives with the
same id and name, its binding moves from widget 10 to widget 20, and the tab
label becomes `Console 9999/A`. -/
theorem c7_witness :
    (connect_to_new_kernel stC7 "kernel-9999.json" 20 1).map
        (fun s2 => s2.shellwidgets.map Client.kernel_widget_id) = some [some 20] ∧
    (connect_to_new_kernel stC7 "kernel-9999.json" 20 1).map
        (fun s2 => s2.shellwidgets.map Client.client_name) = some ["5678/A"] := by
  obtain ⟨st2, hcn⟩ : ∃ st2, connect_to_new_kernel stC7 "kernel-9999.json" 20 1 =
      some st2 := ⟨_, rfl⟩
  have h2 := c7_restart_rebinds_without_name_regeneration stC7 c7Client
    "kernel-9999.json" 20 (by decide) (by decide) st2 hcn
  refine ⟨by decide, ?_⟩
  rw [hcn]
  simp only [Option.map]
  rw [h2.2.1]
  rfl

/-! ### C1 -/

theorem finishRemove_sublist {st : PluginState} {k wcid : Nat} {r : PluginState × Nat}
    (h : finishRemove st k wcid = some r) :
    r.1.shellwidgets.Sublist st.shellwidgets := by
  unfold finishRemove at h
  split at h
  · cases h
    exact List.eraseP_sublist _
  · cases h

theorem close_related_sublist
    (closeFn : PluginState → Nat → Nat → Option (PluginState × Nat))
    (hF : ∀ s2 a c2 r, closeFn s2 a c2 = some r →
      r.1.shellwidgets.Sublist s2.shellwidgets) :
    ∀ (l : List Client) (st : PluginState) (k : Nat) (w : Client)
      (r : PluginState × Nat),
      close_related closeFn l st k w = some r →
      r.1.shellwidgets.Sublist st.shellwidgets := by
  intro l
  induction l with
  | nil =>
    intro st k w r h
    simp only [close_related] at h
    cases h
    exact List.Sublist.refl _
  | cons clw rest ih =>
    intro st k w r h
    rw [close_related] at h
    by_cases hc : clw.cid ≠ w.cid ∧ clw.connection_file = w.connection_file
    · rw [if_pos hc] at h
      cases hcf : closeFn st k clw.cid with
      | none => rw [hcf] at h; cases h
      | some r2 =>
        cases r2 with
        | mk st2 k2 =>
          rw [hcf] at h
          have h2 : close_related closeFn rest st2 k2 w = some r := h
          exact (ih st2 k2 w r h2).trans (hF st k clw.cid (st2, k2) hcf)
    · rw [if_neg hc] at h
      exact ih st k w r h

theorem cascadeClose_sublist
    (closeFn : PluginState → Nat → Nat → Option (PluginState × Nat))
    (hF : ∀ s2 a c2 r, closeFn s2 a c2 = some r →
      r.1.shellwidgets.Sublist s2.shellwidgets)
    {st : PluginState} {idx k : Nat} {w : Client} {r : PluginState × Nat}
    (h : cascadeClose closeFn st idx k w = some r) :
    r.1.shellwidgets.Sublist st.shellwidgets := by
  simp only [cascadeClose] at h
  split at h
  · cases h
  · next st3 k3 heq =>
    exact (finishRemove_sublist h).trans
      (close_related_sublist closeFn hF _ _ _ _ _ heq)

theorem close_console_sublist (oracle : Nat → Ans) :
    ∀ (fuel : Nat) (st : PluginState) (k wcid : Nat) (force : Bool)
      (r : PluginState × Nat),
      close_console oracle fuel st k wcid force = some r →
      r.1.shellwidgets.Sublist st.shellwidgets := by
  intro fuel
  induction fuel with
  | zero =>
    intro st k wcid force r h
    simp only [close_console] at h
    cases h
  | succ n ih =>
    intro st k wcid force r h
    rw [close_console] at h
    split at h
    · cases h
      exact List.Sublist.refl _
    · split at h
      · cases h
      · split at h
        · exact finishRemove_sublist h
        · split at h
          · exact finishRemove_sublist h
          · split at h
            · split at h
              · cases h
                exact List.Sublist.refl _
              · exact finishRemove_sublist h
              · exact cascadeClose_sublist _
                  (fun s2 a c2 r2 h2 => ih s2 a c2 false r2 h2) h
            · exact cascadeClose_sublist _
                (fun s2 a c2 r2 h2 => ih s2 a c2 false r2 h2) h

theorem insertIdx_perm_le {α : Type} :
    ∀ (n : Nat) (l : List α) (a : α), n ≤ l.length →
      (l.insertIdx n a).Perm (a :: l) := by
  intro n
  induction n with
  | zero =>
    intro l a _
    rw [List.insertIdx_zero]
  | succ m ih =>
    intro l a hlen
    cases l with
    | nil => cases (Nat.not_succ_le_zero m) hlen
    | cons b t =>
      rw [List.insertIdx_succ_cons]
      exact (List.Perm.cons b (ih t a (Nat.le_of_succ_le_succ hlen))).trans
        (List.Perm.swap a b t)

theorem get_cons_eraseIdx_perm {α : Type} :
    ∀ (l : List α) (i : Nat) (h : i < l.length),
      (l.get ⟨i, h⟩ :: l.eraseIdx i).Perm l := by
  intro l
  induction l with
  | nil => intro i h; cases h
  | cons a t ih =>
    intro i h
    cases i with
    | zero => exact List.Perm.refl _
    | succ j =>
      rw [List.eraseIdx_cons_succ]
      exact (List.Perm.swap a _ _).trans
        (List.Perm.cons a (ih j (Nat.lt_of_succ_lt_succ h)))

theorem move_tab_perm (st : PluginState) (ifrom ito : Nat) :
    (move_tab st ifrom ito).shellwidgets.Perm st.shellwidgets := by
  unfold move_tab
  split
  · next hlt =>
    exact (insertIdx_perm_le _ _ _ (Nat.min_le_right _ _)).trans
      (get_cons_eraseIdx_perm _ _ hlt)
  · exact List.Perm.refl _

theorem connect_to_new_kernel_names (st : PluginState) (cf : String) (nk cur : Nat)
    {st2 : PluginState} (h : connect_to_new_kernel st cf nk cur = some st2) :
    st2.shellwidgets.map Client.client_name = st.shellwidgets.map Client.client_name := by
  unfold connect_to_new_kernel at h
  cases hf : st.shellwidgets.find? (fun c => c.cid == cur) with
  | none => rw [hf] at h; cases h
  | some w =>
    rw [hf] at h
    simp only at h
    cases hidx : kernelIdxOf st.extconsole w.kernel_widget_id with
    | none => rw [hidx] at h; cases h
    | some idx =>
      rw [hidx] at h
      simp only [Option.some.injEq] at h
      subst h
      obtain ⟨_, hr2, _⟩ := rename_preserves ({ st with extconsole := st.extconsole.eraseIdx idx, shellwidgets := st.shellwidgets.map (fun c => if c.cid = cur then { c with kernel_widget_id := some nk, km_cf := cf } else c) }) cf cur
      rw [hr2]
      simp only [List.map_map]
      refine List.map_congr_left ?_
      intro x _
      by_cases hx : x.cid = cur <;> simp [hx]

theorem new_client_sw (st : PluginState) (cfArg dlg : Option String)
    (kwArg : Option Nat) (ok : Bool) (ncid : Nat) :
    (new_client st cfArg dlg kwArg ok ncid).1.shellwidgets = st.shellwidgets ∨
    ∃ frag name kw1 c,
      allocate (String.mk frag) st.shellwidgets kwArg = some (name, kw1) ∧
      Client.client_name c = name ∧
      (new_client st cfArg dlg kwArg ok ncid).1.shellwidgets =
        st.shellwidgets ++ [c] := by
  simp only [new_client]
  cases new_client_cf cfArg dlg with
  | inl o => exact Or.inl rfl
  | inr cf =>
    simp only [new_client_with_cf]
    split
    · exact Or.inl rfl
    · next frag hfrag =>
      split
      · exact Or.inl rfl
      · next name kw1 halloc =>
        cases ok with
        | false => exact Or.inl rfl
        | true => exact Or.inr ⟨frag, name, kw1, _, halloc, rfl, rfl⟩

/-- C1: `client_name` uniqueness is an invariant of the registry: if the
registered sessions carry pairwise distinct display names, they still do after
any `new_client` call (session creation allocates a fresh name via the
collision loop), after any `close_console` call (closing only ever drops
sessions), after any `move_tab` (a permutation), after the post-restart
rebinding `connect_to_new_kernel`, and after the post-restart
`rename_ipython_client_tab` (which writes the tab label only and leaves every
`client_name` in place). -/
theorem c1_display_name_uniqueness (st : PluginState) (h : distinctNames st) :
    (∀ (cfArg dlg : Option String) (kwArg : Option Nat) (ok : Bool) (ncid : Nat),
      distinctNames (new_client st cfArg dlg kwArg ok ncid).1) ∧
    (∀ (oracle : Nat → Ans) (fuel k wcid : Nat) (force : Bool)
        (r : PluginState × Nat),
      close_console oracle fuel st k wcid force = some r → distinctNames r.1) ∧
    (∀ ifrom ito, distinctNames (move_tab st ifrom ito)) ∧
    (∀ cf nk cur st2, connect_to_new_kernel st cf nk cur = some st2 →
      distinctNames st2) ∧
    (∀ cf cwid, distinctNames (rename_ipython_client_tab st cf cwid)) := by
  refine ⟨?_, ?_, ?_, ?_, ?_⟩
  · intro cfArg dlg kwArg ok ncid
    rcases new_client_sw st cfArg dlg kwArg ok ncid with heq | ⟨frag, name, kw1, c, halloc, hname, heq⟩
    · unfold distinctNames
      rw [heq]
      exact h
    · unfold distinctNames
      rw [heq, List.map_append]
      rw [List.nodup_append]
      refine ⟨h, List.nodup_singleton _, ?_⟩
      intro a ha hb
      simp only [List.map_cons, List.map_nil, List.mem_singleton] at hb
      subst hb
      rcases List.mem_map.1 ha with ⟨x, hx, hxa⟩
      exact allocate_some_not_mem halloc x hx (hxa.trans hname)
  · intro oracle fuel k wcid force r hr
    exact h.sublist ((close_console_sublist oracle fuel st k wcid force r hr).map
      Client.client_name)
  · intro ifrom ito
    exact ((move_tab_perm st ifrom ito).map Client.client_name).symm.nodup h
  · intro cf nk cur st2 h2
    unfold distinctNames
    rw [connect_to_new_kernel_names st cf nk cur h2]
    exact h
  · intro cf cwid
    unfold distinctNames
    rw [(rename_preserves st cf cwid).2.1]
    exact h

/-- C1 witness: in the running example (distinct names `3764/A`, `3764/B`,
`beef/A`), creating a fourth session on `kernel-3764.json` and reordering tabs
both preserve display-name distinctness. -/
theorem c1_witness :
    distinctNames exState ∧
    distinctNames (new_client exState (some "kernel-3764.json") none none true 99).1 ∧
    distinctNames (move_tab exState 0 2) :=
  ⟨by decide,
   (c1_display_name_uniqueness exState (by decide)).1 (some "kernel-3764.json")
     none none true 99,
   (c1_display_name_uniqueness exState (by decide)).2.2.1 0 2⟩

end Spyder
